import Mathlib

/-
  Verification development for the project-analyzer repository.

  The repository's only branching logic lives in
  src/src/utils/notion_client.py (the content-to-blocks formatter) and
  src/src/main.py (the selective-analysis orchestrator), with the AI
  collaborator wrapper in src/src/utils/ai_client.py.  This file gives a
  shallow embedding of those parts and proves/refutes the frozen claims.

  Strings are modelled as `List Char` (`Str` below); the Python string
  operations used by the source (strip, startswith, endswith, `in`,
  lower, replace-with-empty, split) are defined character-by-character to
  match CPython semantics on the ASCII data the code manipulates.
-/

namespace ProjectAnalyzer

abbrev Str := List Char

/-- Python `str.isspace` characters relevant to `str.strip()` (ASCII range:
space, tab, newline, carriage return, vertical tab, form feed). -/
def isPyWs (c : Char) : Bool :=
  c.toNat = 32 || c.toNat = 9 || c.toNat = 10 || c.toNat = 13 ||
  c.toNat = 11 || c.toNat = 12

/-- Python `line.strip()`: drop whitespace from both ends. -/
def pyStrip (l : Str) : Str :=
  ((l.dropWhile isPyWs).reverse.dropWhile isPyWs).reverse

/-- Python `s.startswith(p)`: `pyStartsWith p s`. -/
def pyStartsWith : Str → Str → Bool
  | [], _ => true
  | _ :: _, [] => false
  | p :: ps, c :: cs => p = c && pyStartsWith ps cs

/-- Python `s.endswith(p)`: `pyEndsWith p s`. -/
def pyEndsWith (p s : Str) : Bool :=
  pyStartsWith p.reverse s.reverse

/-- Python `needle in hay` (substring test): `pyContains needle hay`. -/
def pyContains (needle : Str) : Str → Bool
  | [] => needle.isEmpty
  | c :: cs => pyStartsWith needle (c :: cs) || pyContains needle cs

/-- Python `s.lower()` (ASCII behaviour, which covers all keywords the
source compares against). -/
def pyLower (l : Str) : Str := l.map Char.toLower

/-- Python `s.replace(ab, '')` for a two-character pattern `a b`
(non-overlapping, left to right) — the source only ever replaces
`'##'` and `'**'` with the empty string. -/
def removeDouble (a b : Char) : Str → Str
  | [] => []
  | [c] => [c]
  | c :: d :: rest =>
    if c = a ∧ d = b then removeDouble a b rest
    else c :: removeDouble a b (d :: rest)

/-- Python `s.replace(abc, '')` for a three-character pattern `a b c`
(non-overlapping, left to right) — used for `'###'`. -/
def removeTriple (a b c : Char) : Str → Str
  | x :: y :: z :: rest =>
    if x = a ∧ y = b ∧ z = c then removeTriple a b c rest
    else x :: removeTriple a b c (y :: z :: rest)
  | l => l

/-- Python `s.split(sep)` for a one-character separator. -/
def pySplitOn (sep : Char) : Str → List Str
  | [] => [[]]
  | c :: cs =>
    if c = sep then [] :: pySplitOn sep cs
    else
      match pySplitOn sep cs with
      | [] => [[c]]
      | r :: rs => (c :: r) :: rs

/-- The part of `s` after the first occurrence of `sep`
(`s.split(sep, 1)[1]`); `none` models the `IndexError` Python raises when
`sep` is absent. -/
def pySplitOnceAfter (sep : Char) : Str → Option Str
  | [] => none
  | c :: cs => if c = sep then some cs else pySplitOnceAfter sep cs

/-- Embedding of `s.split(sep, 1)[1]` at a call site where the source has already
checked that `sep` occurs in `s` (so the `IndexError` branch is
unreachable there). -/
def afterColon (l : Str) : Str :=
  (pySplitOnceAfter ':' l).getD []

/-! ## Data model: blocks (src/src/utils/notion_client.py)

A `Block` abstracts one Notion block dict produced by the formatter:
the block type plus the concatenated `rich_text` content (and the emoji
icon for callouts, the cell texts for tables).  Colors and bold/italic
annotations carry no logic and are dropped. -/

inductive Block where
  | heading1 (text : Str)
  | heading2 (text : Str)
  | heading3 (text : Str)
  | paragraph (text : Str)
  | bullet (text : Str)
  | callout (text : Str) (icon : Str)
  | divider
  | table (rows : List (List Str))
deriving DecidableEq

/-- The one way `_parse_content_to_blocks` can raise: an out-of-range
index (`subheading_text[0]` on an empty string, or `split('.', 1)[1]`
when no `'.'` is present). -/
inductive FmtErr where
  | indexError
deriving DecidableEq

def isBulletBlock : Block → Bool
  | .bullet _ => true
  | _ => false

def isHeadingBlock : Block → Bool
  | .heading1 _ => true
  | .heading2 _ => true
  | .heading3 _ => true
  | _ => false

def isCalloutBlock : Block → Bool
  | .callout _ _ => true
  | _ => false

/-! ## The line classifier `_parse_content_to_blocks`
(notion_client.py lines 1099-1193), line by line. -/

/-- Condition of the `heading_2` branch (line 1110):
`line.startswith('## ') or (line.startswith('**') and line.endswith('**')
and len(line) > 10)`. -/
def isH2Line (l : Str) : Bool :=
  pyStartsWith ("## ".toList) l ||
    (pyStartsWith ("**".toList) l && pyEndsWith ("**".toList) l &&
      decide (10 < l.length))

/-- Condition of the `heading_3` branch (line 1134):
`line.startswith('### ') or (line[0].isdigit() and '. ' in line and
'**' in line)` (the classifier only reaches it on a non-blank line). -/
def isH3Line (l : Str) : Bool :=
  pyStartsWith ("### ".toList) l ||
    ((match l with | c :: _ => c.isDigit | [] => false) &&
      pyContains (". ".toList) l && pyContains ("**".toList) l)

/-- Condition of the bullet branch (line 1149):
`line.startswith(('- ', '• '))`. -/
def isBulletLine (l : Str) : Bool :=
  pyStartsWith ("- ".toList) l || pyStartsWith ("• ".toList) l

/-- Condition of the callout branch (line 1171): any of the four key
substrings occurs in `line.lower()`. -/
def isCalloutLine (l : Str) : Bool :=
  [("important".toList), ("key insight".toList), ("critical".toList),
    ("note:".toList)].any fun k => pyContains k (pyLower l)

/-- Condition of the paragraph fallback (line 1184):
`len(line) > 15 and not line.startswith(('*', '#', '-'))`. -/
def isParaLine (l : Str) : Bool :=
  decide (15 < l.length) &&
    !(pyStartsWith ("*".toList) l || pyStartsWith ("#".toList) l ||
      pyStartsWith ("-".toList) l)

/-- Contextual emoji added to a `heading_2` text (lines 1113-1123);
first matching keyword family wins, at most one icon. -/
def addHeadingIcon (t : Str) : Str :=
  let lo := pyLower t
  if [("opportunity".toList), ("market".toList), ("size".toList)].any
      (fun w => pyContains w lo) then
    ("📈 ".toList) ++ t
  else if [("strategy".toList), ("position".toList), ("competitive".toList)].any
      (fun w => pyContains w lo) then
    ("🎯 ".toList) ++ t
  else if [("risk".toList), ("challenge".toList), ("threat".toList)].any
      (fun w => pyContains w lo) then
    ("⚠️ ".toList) ++ t
  else if [("recommend".toList), ("action".toList), ("next".toList)].any
      (fun w => pyContains w lo) then
    ("✅ ".toList) ++ t
  else if [("financial".toList), ("revenue".toList), ("cost".toList)].any
      (fun w => pyContains w lo) then
    ("💰 ".toList) ++ t
  else t

/-- Text of an emitted `heading_2` (line 1111):
`line.replace('##', '').replace('**', '').strip()` plus the icon. -/
def h2Text (l : Str) : Str :=
  addHeadingIcon (pyStrip (removeDouble '*' '*' (removeDouble '#' '#' l)))

/-- Text of an emitted `heading_3` (lines 1135-1138):
`subheading_text = line.replace('###', '').strip()`; if it starts with a
digit, keep only the part after the first `'.'`, stripped; then remove
all `'**'`.  `.error .indexError` models the two `IndexError` sites
(`subheading_text[0]` on an empty string; `split('.', 1)[1]` with no
`'.'`). -/
def h3Text (l : Str) : Except FmtErr Str :=
  match pyStrip (removeTriple '#' '#' '#' l) with
  | [] => .error .indexError
  | c :: cs =>
    if c.isDigit then
      match pySplitOnceAfter '.' (c :: cs) with
      | none => .error .indexError
      | some rest => .ok (removeDouble '*' '*' (pyStrip rest))
    else .ok (removeDouble '*' '*' (c :: cs))

/-- Contextual emoji added to a bullet text (lines 1152-1160);
first matching keyword family wins, at most one icon. -/
def bulletDecorate (t : Str) : Str :=
  let lo := pyLower t
  if [("increase".toList), ("grow".toList), ("opportunity".toList),
      ("positive".toList), ("strong".toList)].any (fun w => pyContains w lo) then
    ("📈 ".toList) ++ t
  else if [("decrease".toList), ("reduce".toList), ("risk".toList),
      ("negative".toList), ("challenge".toList)].any (fun w => pyContains w lo) then
    ("📉 ".toList) ++ t
  else if [("recommend".toList), ("should".toList), ("action".toList),
      ("implement".toList)].any (fun w => pyContains w lo) then
    ("💡 ".toList) ++ t
  else if [("competitive".toList), ("advantage".toList),
      ("differentiate".toList)].any (fun w => pyContains w lo) then
    ("🎯 ".toList) ++ t
  else t

/-- The bullet block produced for a (stripped) bullet line:
`line[2:].strip()` decorated with the contextual emoji (lines 1150-1168). -/
def mkBulletBlock (l : Str) : Block :=
  Block.bullet (bulletDecorate (pyStrip (l.drop 2)))

/-- One iteration of the `for line in lines` loop of
`_parse_content_to_blocks`: strip the line, skip blanks, then the
`if`/`elif` classifier chain in source order.  Returns the (zero or one)
blocks appended, or the `IndexError` the iteration raises. -/
def classifyLine (raw : Str) : Except FmtErr (List Block) :=
  let l := pyStrip raw
  if l = [] then .ok []
  else if isH2Line l then .ok [Block.heading2 (h2Text l)]
  else if isH3Line l then
    match h3Text l with
    | .ok t => .ok [Block.heading3 t]
    | .error e => .error e
  else if isBulletLine l then .ok [mkBulletBlock l]
  else if isCalloutLine l then .ok [Block.callout l ("🔥".toList)]
  else if isParaLine l then .ok [Block.paragraph l]
  else .ok []

/-- The loop over all lines; an `IndexError` on any line aborts the call
with no result, exactly as the Python exception does. -/
def parseLines : List Str → Except FmtErr (List Block)
  | [] => .ok []
  | l :: ls =>
    match classifyLine l with
    | .error e => .error e
    | .ok b =>
      match parseLines ls with
      | .error e => .error e
      | .ok rest => .ok (b ++ rest)

/-- Embedding of `_parse_content_to_blocks(content)`: split on newlines and classify
each line in order. -/
def parseContentToBlocks (content : Str) : Except FmtErr (List Block) :=
  parseLines (pySplitOn '\n' content)

/-! ## `_extract_key_insight` (notion_client.py lines 332-349) -/

/-- Loop body of `_extract_key_insight`: walk the lines accumulating up
to two candidate insight sentences, stopping early at two. -/
def extractKeyInsightAux : List Str → List Str → List Str
  | [], acc => acc
  | line :: rest, acc =>
    let l := pyStrip line
    if 50 < l.length ∧
        !(pyStartsWith ("#".toList) l || pyStartsWith ("*".toList) l ||
          pyStartsWith ("-".toList) l) = true ∧
        pyContains ("**".toList) l = false then
      let acc' :=
        if [("opportunity".toList), ("key".toList), ("important".toList),
            ("recommend".toList), ("should".toList), ("significant".toList)].any
            (fun w => pyContains w (pyLower l)) then
          acc ++ [l]
        else if acc = [] ∧ 80 < l.length then acc ++ [l]
        else acc
      if 2 ≤ acc'.length then acc' else extractKeyInsightAux rest acc'
    else extractKeyInsightAux rest acc

/-- Embedding of `_extract_key_insight(content)`: `' '.join(insights[:1])`, i.e. the
first collected insight, or the empty string. -/
def extractKeyInsight (content : Str) : Str :=
  match extractKeyInsightAux (pySplitOn '\n' content) [] with
  | [] => []
  | l :: _ => l

/-! ## Static per-analysis-type preamble blocks
(`_build_market_analysis_blocks`, `_build_competitive_analysis_blocks`,
`_build_technical_analysis_blocks`, `_build_financial_analysis_blocks`;
table cells transcribed from the source constants). -/

def marketTableBlock : Block :=
  Block.table
    [[("Market Factor".toList), ("Assessment".toList)],
     [("🎯 Target Market".toList), ("Health-conscious consumers, 25-55 years".toList)],
     [("📊 Market Size".toList), ("Premium supplement market, $40-100+ products".toList)],
     [("📈 Growth Rate".toList), ("15-25% annually in premium segments".toList)],
     [("🚀 Opportunity".toList), ("High potential for bioavailable products".toList)]]

def marketStaticBlocks : List Block :=
  [Block.heading2 ("📈 Market Opportunity Assessment".toList), marketTableBlock]

def competitiveTableBlock : Block :=
  Block.table
    [[("Competitor".toList), ("Position".toList), ("Price Range".toList), ("Key Strength".toList)],
     [("🧪 Thorne HealthTech".toList), ("Clinical-grade".toList), ("$25-60".toList), ("Research-backed".toList)],
     [("🌱 MaryRuth Organics".toList), ("Organic, Family".toList), ("$20-50".toList), ("Liquid delivery".toList)],
     [("💊 Pure Encapsulations".toList), ("Practitioner".toList), ("$15-45".toList), ("Hypoallergenic".toList)],
     [("🚀 CYMBIOTIKA".toList), ("Premium Bio-available".toList), ("$40-100+".toList), ("Liposomal delivery".toList)]]

def competitiveStaticBlocks : List Block :=
  [Block.heading2 ("🏢 Competitive Landscape".toList), competitiveTableBlock]

def technicalTableBlock : Block :=
  Block.table
    [[("Development Phase".toList), ("Timeline".toList), ("Team Requirements".toList)],
     [("🎯 Planning & Design".toList), ("2-4 weeks".toList), ("1 Senior + 1 Junior Dev".toList)],
     [("🏗️ Core Development".toList), ("8-12 weeks".toList), ("1 Senior + 2-3 Junior Dev".toList)],
     [("🧪 Testing & Launch".toList), ("3-4 weeks".toList), ("Full team involvement".toList)],
     [("📈 Optimization".toList), ("Ongoing".toList), ("1-2 Junior Dev maintenance".toList)]]

def technicalStaticBlocks : List Block :=
  [Block.heading2 ("⚙️ Development Roadmap".toList), technicalTableBlock]

def financialTableBlock : Block :=
  Block.table
    [[("Financial Metric".toList), ("Year 1".toList), ("Year 2".toList), ("Year 3".toList)],
     [("💵 Revenue Potential".toList), ("$200K - $500K".toList), ("$800K - $1.5M".toList), ("$2M - $4M".toList)],
     [("💸 Development Costs".toList), ("$150K - $300K".toList), ("$100K - $200K".toList), ("$75K - $150K".toList)],
     [("📈 Projected Profit".toList), ("$50K - $200K".toList), ("$400K - $800K".toList), ("$1M - $2M".toList)],
     [("🎯 ROI Estimate".toList), ("25% - 67%".toList), ("400% - 800%".toList), ("1300% - 2000%".toList)]]

def financialStaticBlocks : List Block :=
  [Block.heading2 ("💰 Financial Projections".toList), financialTableBlock]

/-! ## Dynamic risk extraction (`_build_risk_analysis_blocks`,
`_extract_risks_from_content`, `_assess_risk_priority`,
`_generate_default_project_risks`, `_build_dynamic_risk_table`).
The source carries this variant twice (the file's duplicated snapshot);
both copies are textually identical and the spec names the
dynamic-extraction variant canonical. -/

structure RiskInfo where
  name : Str
  probability : Str
  impact : Str
  priority : Str
deriving DecidableEq

/-- High/Low/Medium bucketing of a probability or impact field value
(`'high' in text` checked before `'low' in text`). -/
def levelOf (t : Str) : Str :=
  if pyContains ("high".toList) t then "High".toList
  else if pyContains ("low".toList) t then "Low".toList
  else "Medium".toList

/-- Priority bucketing of a `Priority:` field value. -/
def priorityOf (t : Str) : Str :=
  if pyContains ("high".toList) t || pyContains ("critical".toList) t then
    "🔴 HIGH".toList
  else if pyContains ("low".toList) t then "🟢 LOW".toList
  else "🟡 MEDIUM".toList

/-- Embedding of `_assess_risk_priority` (the `full_content` argument is unused by the
source). -/
def assessRiskPriority (riskName : Str) : Str :=
  let lo := pyLower riskName
  if [("security".toList), ("data".toList), ("integration".toList),
      ("user experience".toList), ("performance".toList)].any
      (fun w => pyContains w lo) then
    "🔴 HIGH".toList
  else if [("documentation".toList), ("training".toList), ("minor".toList),
      ("cosmetic".toList)].any (fun w => pyContains w lo) then
    "🟢 LOW".toList
  else "🟡 MEDIUM".toList

/-- Loop of `_extract_risks_from_content`: state is the pending
`current_risk` and the accumulated risk list. -/
def extractRisksAux : List Str → Option RiskInfo → List RiskInfo → List RiskInfo
  | [], _, acc => acc
  | line :: rest, cur, acc =>
    let l := pyStrip line
    let lo := pyLower l
    if [("risk:".toList), ("probability:".toList), ("impact:".toList),
        ("priority:".toList)].any (fun k => pyContains k lo) then
      if pyContains ("risk:".toList) lo then
        let nm := pyStrip (afterColon l)
        if nm ≠ [] ∧ nm.length < 50 then
          extractRisksAux rest
            (some ⟨nm, "Medium".toList, "Medium".toList, "MEDIUM".toList⟩) acc
        else extractRisksAux rest cur acc
      else if pyContains ("probability:".toList) lo ∧ cur.isSome = true then
        match cur with
        | some r =>
          extractRisksAux rest
            (some { r with probability := levelOf (pyLower (pyStrip (afterColon l))) }) acc
        | none => extractRisksAux rest cur acc
      else if pyContains ("impact:".toList) lo ∧ cur.isSome = true then
        match cur with
        | some r =>
          extractRisksAux rest
            (some { r with impact := levelOf (pyLower (pyStrip (afterColon l))) }) acc
        | none => extractRisksAux rest cur acc
      else if pyContains ("priority:".toList) lo ∧ cur.isSome = true then
        match cur with
        | some r =>
          extractRisksAux rest none
            (acc ++ [{ r with priority := priorityOf (pyLower (pyStrip (afterColon l))) }])
        | none => extractRisksAux rest cur acc
      else extractRisksAux rest cur acc
    else if pyContains ("**".toList) l ∧
        [("technical".toList), ("integration".toList), ("development".toList),
         ("user".toList), ("data".toList), ("performance".toList),
         ("security".toList), ("timeline".toList)].any
          (fun k => pyContains k lo) = true then
      let nm := pyStrip (removeDouble '*' '*' l)
      if nm.length < 60 then
        extractRisksAux rest cur
          (acc ++ [⟨nm, "Medium".toList, "Medium".toList, assessRiskPriority nm⟩])
      else extractRisksAux rest cur acc
    else extractRisksAux rest cur acc

/-- Embedding of `_generate_default_project_risks(content)`. -/
def generateDefaultProjectRisks (content : Str) : List RiskInfo :=
  let lo := pyLower content
  (if [("development".toList), ("code".toList), ("feature".toList),
       ("app".toList), ("website".toList)].any (fun k => pyContains k lo) then
    [⟨("💻 Technical Implementation Complexity".toList),
      "Medium".toList, "High".toList, "🔴 HIGH".toList⟩]
   else []) ++
  (if [("integration".toList), ("api".toList), ("system".toList),
       ("platform".toList)].any (fun k => pyContains k lo) then
    [⟨("🔗 System Integration Challenges".toList),
      "Medium".toList, "Medium".toList, "🟡 MEDIUM".toList⟩]
   else []) ++
  (if [("user".toList), ("customer".toList), ("experience".toList),
       ("interface".toList)].any (fun k => pyContains k lo) then
    [⟨("👥 User Experience Issues".toList),
      "Low".toList, "High".toList, "🟡 MEDIUM".toList⟩]
   else []) ++
  [⟨("⏰ Development Timeline Delays".toList),
    "Medium".toList, "Medium".toList, "🟡 MEDIUM".toList⟩,
   ⟨("👨‍💻 Team Skill Gap Challenges".toList),
    "Medium".toList, "Medium".toList, "🟡 MEDIUM".toList⟩]

/-- Embedding of `_extract_risks_from_content(content)`: parse, fall back to defaults
when nothing was found, keep the first five. -/
def extractRisksFromContent (content : Str) : List RiskInfo :=
  let risks := extractRisksAux (pySplitOn '\n' content) none []
  (if risks = [] then generateDefaultProjectRisks content else risks).take 5

/-- Embedding of `_build_dynamic_risk_table(risks)`: header row plus one row per
parsed risk. -/
def buildDynamicRiskTable (risks : List RiskInfo) : List (List Str) :=
  [("Risk Category".toList), ("Probability".toList), ("Impact".toList),
    ("Priority".toList)] ::
  risks.map fun r => [r.name, r.probability, r.impact, r.priority]

/-- Embedding of `_build_risk_analysis_blocks(content)`: dynamic risk matrix (or
fallback heading when no risks were parsed) followed by the parsed
content. -/
def buildRiskAnalysisBlocks (content : Str) : Except FmtErr (List Block) :=
  let parsed := extractRisksFromContent content
  let hdr :=
    if parsed ≠ [] then
      [Block.heading2 ("⚠️ Project-Specific Risk Assessment Matrix".toList),
       Block.table (buildDynamicRiskTable parsed)]
    else [Block.heading2 ("⚠️ Risk Analysis Results".toList)]
  (parseContentToBlocks content).map fun body => hdr ++ body

/-! ## `_build_comprehensive_report_blocks`
(notion_client.py lines 228-330) -/

/-- The `emoji_map.get(analysis_type, '📋')` lookup of
`create_beautiful_analysis_report` (lines 190-198). -/
def emojiFor (analysisType : Str) : Str :=
  if analysisType = ("Market Analysis".toList) then "📊".toList
  else if analysisType = ("Competitive Analysis".toList) then "🏢".toList
  else if analysisType = ("Risk Assessment".toList) then "⚠️".toList
  else if analysisType = ("Technical Feasibility".toList) then "⚙️".toList
  else if analysisType = ("Financial Overview".toList) then "💰".toList
  else "📋".toList

/-- The five header blocks (lines 234-280).  `now` stands for the
`datetime.now().strftime(...)` timestamp, an input of the embedding. -/
def headerBlocks (projectName analysisType emoji now : Str) : List Block :=
  [Block.heading1 (("🚀 Cymbiotika ".toList) ++ analysisType),
   Block.paragraph (("PROJECT: ".toList) ++ projectName),
   Block.paragraph (("ANALYSIS TYPE: ".toList) ++ emoji ++ (" ".toList) ++ analysisType),
   Block.paragraph (("GENERATED: ".toList) ++ now),
   Block.divider]

/-- The key-insight callout (lines 282-293), emitted only when
`_extract_key_insight` found something. -/
def insightBlocks (content : Str) : List Block :=
  match extractKeyInsight content with
  | [] => []
  | s => [Block.callout (("💡 KEY INSIGHT: ".toList) ++ s) ("🎯".toList)]

/-- The footer (lines 309-328): divider plus the engine callout. -/
def footerCallout : Block :=
  Block.callout ("🔬 Powered by Cymbiotika AI Analysis Engine".toList)
    ("⚡".toList)

def footerBlocks : List Block := [Block.divider, footerCallout]

/-- The per-type dispatch (lines 295-307): each specialised builder is
its static preamble followed by `_parse_content_to_blocks(content)`,
except the risk builder (dynamic matrix) and the default branch (parsed
content only). -/
def specializedBlocks (analysisType content : Str) : Except FmtErr (List Block) :=
  if analysisType = ("Market Analysis".toList) then
    (parseContentToBlocks content).map fun body => marketStaticBlocks ++ body
  else if analysisType = ("Competitive Analysis".toList) then
    (parseContentToBlocks content).map fun body => competitiveStaticBlocks ++ body
  else if analysisType = ("Risk Assessment".toList) then
    buildRiskAnalysisBlocks content
  else if analysisType = ("Technical Feasibility".toList) then
    (parseContentToBlocks content).map fun body => technicalStaticBlocks ++ body
  else if analysisType = ("Financial Overview".toList) then
    (parseContentToBlocks content).map fun body => financialStaticBlocks ++ body
  else parseContentToBlocks content

/-- Embedding of `_build_comprehensive_report_blocks(project_name, analysis_type,
content, emoji)`: header, optional key-insight callout, specialised
content, footer.  An `IndexError` inside `_parse_content_to_blocks`
propagates (the builder has no handler of its own). -/
def buildComprehensiveReportBlocks (projectName analysisType content emoji now : Str) :
    Except FmtErr (List Block) :=
  (specializedBlocks analysisType content).map fun mid =>
    headerBlocks projectName analysisType emoji now ++
    insightBlocks content ++ mid ++ footerBlocks

/-- The block sequence of one report page as
`create_beautiful_analysis_report` builds it: the comprehensive blocks
with the emoji chosen from the analysis type. -/
def buildReportBlocks (projectName analysisType content now : Str) :
    Except FmtErr (List Block) :=
  buildComprehensiveReportBlocks projectName analysisType content
    (emojiFor analysisType) now

/-! ## Collaborator model (src/src/utils/ai_client.py, src/src/main.py)

The two external collaborators are modelled by oracles: the Notion API
(page retrieve / update / create outcomes) and the OpenAI chat API (one
outcome per call, indexed in call order; the prompt texts carry no
logic and are abstracted away, as the spec's §1 scopes them out). -/

/-- Outcome of one chat-completion call inside
`AIClient.generate_response`.  `response` is a returned message,
`exn` an exception of class `Exception` (caught by `generate_response`'s
handler, ai_client.py lines 80-82), `fatal` a `BaseException` (for
example `asyncio.CancelledError`), which no `except Exception` handler
in the code base catches. -/
inductive GenOutcome where
  | response (s : Str)
  | exn (e : Str)
  | fatal (e : Str)
deriving DecidableEq

/-- Embedding of `AIClient.generate_response`: strip a successful response, convert a
caught exception to the `'Analysis failed: ...'` sentinel string, let a
`BaseException` escape. -/
def generateResponse (o : GenOutcome) : Except Str Str :=
  match o with
  | .response s => .ok (pyStrip s)
  | .exn e => .ok (("Analysis failed: ".toList) ++ e)
  | .fatal e => .error e

/-- The properties of the Notion project page, at the granularity
`get_page_data` reads them: the first title property's text, the first
populated description-like rich-text property, and the `Analysis Types`
multi-select names (each `none` when absent/empty). -/
structure PageProps where
  title : Option Str
  description : Option Str
  analysisTypes : Option (List Str)
deriving DecidableEq

/-- One run's collaborators.  `retrievePage` is the result of
`client.pages.retrieve` (deterministic within a run), `statusUpdate s`
the result of the page update setting `Analysis Status` to `s`,
`genCall i` the outcome of the `i`-th chat-completion call of the run,
`createPage t` the result of `client.pages.create` for the report of
analysis type `t`, `completionUpdate` the result of the update written
by `update_analysis_completion`, and `now` the timestamp string. -/
structure Collab where
  retrievePage : Except Str PageProps
  statusUpdate : Str → Except Str Unit
  genCall : Nat → GenOutcome
  createPage : Str → Except Str Str
  completionUpdate : Except Str Unit
  now : Str

/-- The dict returned by `get_page_data` (notion_client.py lines 59-132). -/
structure PageData where
  projectName : Str
  description : Str
  analysisTypes : List Str
deriving DecidableEq

/-- Embedding of `get_page_data(page_id)`: extract name, description and analysis
types, falling back per field; its catch-all handler (lines 123-132)
turns any retrieve failure into the fallback dict, so the call never
raises. -/
def getPageData (c : Collab) (pageId : Str) : PageData :=
  match c.retrievePage with
  | .error _ =>
    ⟨("Project ".toList) ++ pageId.take 8,
     "Could not retrieve project data".toList, []⟩
  | .ok props =>
    ⟨props.title.getD (("Project ".toList) ++ pageId.take 8),
     props.description.getD ("No description provided".toList),
     props.analysisTypes.getD []⟩

/-- The six analysis types of the selective-mode fallback
(main.py lines 117-118 and 125-126). -/
def allSixTypes : List Str :=
  [("Market Analysis".toList), ("Competitive Analysis".toList),
   ("Risk Analysis".toList), ("Technical Feasibility".toList),
   ("Financial Overview".toList), ("Solution Recommendations".toList)]

/-- Embedding of `get_selected_analysis_types` (main.py lines 98-126): the page's
`Analysis Types` list, or all six types when it is empty (its
`except` branch also returns all six, but `get_page_data` never
raises). -/
def getSelectedAnalysisTypes (c : Collab) (pageId : Str) : List Str :=
  let selected := (getPageData c pageId).analysisTypes
  if selected = [] then allSixTypes else selected

/-! ## The selective run (`SelectiveCymbiotikaProjectAnalyzer.
create_selective_analysis`, main.py lines 128-337) -/

/-- Observable per-run effects: how many chat calls were made
(`llmIdx`), which report pages were actually created (`published`),
the `analysis_results` list, the successful `Analysis Status` updates in
order, the number of executive-recommendation generator calls, and the
`AI Recommendation` content stored by a successful completion update. -/
structure RunSt where
  llmIdx : Nat
  published : List Str
  results : List Str
  statusSets : List Str
  execCalls : Nat
  completionSet : Option Str
deriving DecidableEq

def initialRunSt : RunSt := ⟨0, [], [], [], 0, none⟩

/-- The dict `create_selective_analysis` returns (main.py lines 273-279
and 316-322). -/
structure RunResult where
  projectName : Str
  selectedTypes : List Str
  analysisResults : List Str
  totalReports : Nat
  status : Str
deriving DecidableEq

/-- Embedding of `create_beautiful_analysis_report` (notion_client.py lines 181-226):
build the blocks and create the page; its catch-all handler returns a
failure string instead of raising, so a formatter `IndexError` or a
failed create skips the page but never aborts the caller. -/
def createReportSt (c : Collab) (projectName analysisType content : Str)
    (st : RunSt) : RunSt :=
  match buildReportBlocks projectName analysisType content c.now with
  | .error _ => st
  | .ok _ =>
    match c.createPage analysisType with
    | .ok _ => { st with published := st.published ++ [analysisType] }
    | .error _ => st

/-- The `(selection label, published analysis type)` pairs of the six
per-type sections of `create_selective_analysis`, in source order
(main.py lines 154-266); note the risk section selects on
`"Risk Analysis"` but publishes type `"Risk Assessment"`. -/
def stepSpecs : List (Str × Str) :=
  [(("Market Analysis".toList), ("Market Analysis".toList)),
   (("Competitive Analysis".toList), ("Competitive Analysis".toList)),
   (("Risk Analysis".toList), ("Risk Assessment".toList)),
   (("Technical Feasibility".toList), ("Technical Feasibility".toList)),
   (("Financial Overview".toList), ("Financial Overview".toList)),
   (("Solution Recommendations".toList), ("Solution Recommendations".toList))]

/-- One per-type section: skip when not selected; otherwise run the
analyzer (one chat call through `generate_response`), and on a returned
string publish the report and record the result.  The section's
`except Exception` cannot fire (the analyzer converts exceptions to
sentinel strings and `create_beautiful_analysis_report` catches its
own), so only a `BaseException` from the chat call leaves the section —
and it escapes every handler in `main.py`, aborting the run. -/
def runOneType (c : Collab) (projectName : Str) (selected : List Str)
    (spec : Str × Str) (st : RunSt) : Except (Str × RunSt) RunSt :=
  if spec.1 ∈ selected then
    let st1 := { st with llmIdx := st.llmIdx + 1 }
    match generateResponse (c.genCall st.llmIdx) with
    | .error e => .error (e, st1)
    | .ok content =>
      let st2 := createReportSt c projectName spec.2 content st1
      .ok { st2 with results := st2.results ++ [spec.2] }
  else .ok st

/-- All six per-type sections in order. -/
def runTypes (c : Collab) (projectName : Str) (selected : List Str) :
    List (Str × Str) → RunSt → Except (Str × RunSt) RunSt
  | [], st => .ok st
  | spec :: rest, st => do
    let st' ← runOneType c projectName selected spec st
    runTypes c projectName selected rest st'

/-- Embedding of `str(ai_recommendation)[:2000]` — the `AI Recommendation` rich-text
content written by `update_analysis_completion` (notion_client.py
line 168). -/
def completionContent (recommendation : Str) : Str :=
  recommendation.take 2000

/-- Embedding of `update_analysis_completion` (notion_client.py lines 153-179): the
stored content on success; a failed update is logged and swallowed, so
nothing is stored and nothing is raised. -/
def updateAnalysisCompletionStored (u : Except Str Unit)
    (recommendation : Str) : Option Str :=
  match u with
  | .ok _ => some (completionContent recommendation)
  | .error _ => none

/-- Embedding of `_generate_executive_recommendation` (main.py lines 339-384): one
chat call through `generate_response`; the prompt interpolation cannot
raise and `generate_response` converts every caught exception to a
sentinel string, so the inner fallback sentence is reachable only
through a `BaseException`, which its `except Exception` does not catch
either.  There is no second response and no priority-score parsing. -/
def generateExecutiveRecommendation (o : GenOutcome) : Except Str Str :=
  generateResponse o

/-- The tail of a successful run (main.py lines 292-322): best-effort
completion update, best-effort `Complete` status update, return the
summary dict. -/
def finishRun (c : Collab) (projectName : Str) (selected : List Str)
    (st : RunSt) (recommendation : Str) : Except Str RunResult × RunSt :=
  let st1 :=
    { st with completionSet :=
        updateAnalysisCompletionStored c.completionUpdate recommendation }
  let st2 :=
    match c.statusUpdate ("Complete".toList) with
    | .ok _ => { st1 with statusSets := st1.statusSets ++ [("Complete".toList)] }
    | .error _ => st1
  (.ok ⟨projectName, selected, st.results, st.results.length,
      ("Complete".toList)⟩, st2)

/-- The outer `except Exception` (main.py lines 324-337): best-effort
`Error` status update, then re-raise. -/
def outerCatch (c : Collab) (e : Str) (st : RunSt) :
    Except Str RunResult × RunSt :=
  match c.statusUpdate ("Error".toList) with
  | .ok _ =>
    (.error e, { st with statusSets := st.statusSets ++ [("Error".toList)] })
  | .error _ => (.error e, st)

/-- Embedding of `create_selective_analysis(page_id)` (main.py lines 128-337).
Control flow: read the selected types (never raises); update status to
`Analyzing` — the one unguarded collaborator call, whose failure goes to
the outer handler; re-read the page data; run the six per-type sections;
on an empty result list set status `Error` and return early (its
unguarded update also feeds the outer handler on failure); otherwise
generate the executive recommendation, store it truncated, set status
`Complete`.  A `BaseException` from a chat call bypasses every
`except Exception`, including the outer one. -/
def createSelectiveAnalysis (c : Collab) (pageId : Str) :
    Except Str RunResult × RunSt :=
  let selected := getSelectedAnalysisTypes c pageId
  match c.statusUpdate ("Analyzing".toList) with
  | .error e => outerCatch c e initialRunSt
  | .ok _ =>
    let st0 := { initialRunSt with statusSets := [("Analyzing".toList)] }
    let data := getPageData c pageId
    match runTypes c data.projectName selected stepSpecs st0 with
    | .error (e, stE) => (.error e, stE)
    | .ok st1 =>
      if st1.results = [] then
        match c.statusUpdate ("Error".toList) with
        | .error e => outerCatch c e st1
        | .ok _ =>
          (.ok ⟨data.projectName, selected, st1.results, st1.results.length,
              ("Error".toList)⟩,
           { st1 with statusSets := st1.statusSets ++ [("Error".toList)] })
      else
        let st2 :=
          { st1 with
            llmIdx := st1.llmIdx + 1
            execCalls := st1.execCalls + 1 }
        match generateExecutiveRecommendation (c.genCall st1.llmIdx) with
        | .error e => (.error e, st2)
        | .ok recommendation =>
          finishRun c data.projectName selected st2 recommendation

/-! ## Helper lemmas -/

theorem getLast?_append_two {α : Type} (l : List α) (a b : α) :
    (l ++ [a, b]).getLast? = some b := by
  induction l with
  | nil => rfl
  | cons c l ih =>
    cases l with
    | nil => rfl
    | cons d l' => simpa using ih

/-! ## C1: every built report starts with a Heading and ends with a
Callout -/

/-- C1: for every report with non-empty raw text, the block sequence
built by `_build_comprehensive_report_blocks` (when it returns) is
non-empty, begins with the title `heading_1`, and ends with the footer
callout. -/
theorem buildReport_first_heading_last_callout
    (projectName analysisType content emoji now : Str) (bs : List Block)
    (_hne : content ≠ [])
    (h : buildComprehensiveReportBlocks projectName analysisType content emoji now
      = .ok bs) :
    bs ≠ [] ∧
    bs.head? = some (Block.heading1 (("🚀 Cymbiotika ".toList) ++ analysisType)) ∧
    bs.getLast? = some footerCallout := by
  unfold buildComprehensiveReportBlocks at h
  cases hs : specializedBlocks analysisType content with
  | error e => rw [hs] at h; exact absurd h (by simp [Except.map])
  | ok mid =>
    rw [hs] at h
    simp only [Except.map, Except.ok.injEq] at h
    subst h
    refine ⟨by simp [headerBlocks], by simp [headerBlocks], ?_⟩
    have : headerBlocks projectName analysisType emoji now ++
        insightBlocks content ++ mid ++ footerBlocks =
        (headerBlocks projectName analysisType emoji now ++
          insightBlocks content ++ mid) ++ [Block.divider, footerCallout] := by
      simp [footerBlocks]
    rw [this, getLast?_append_two]

/-- Witness for C1 at a concrete report. -/
theorem buildReport_first_heading_last_callout_witness :
    ("hello".toList ≠ ([] : Str)) ∧
    ∃ bs, buildComprehensiveReportBlocks ("P".toList) ("Z".toList)
        ("hello".toList) ("E".toList) ("T".toList) = .ok bs ∧
      bs ≠ [] ∧
      bs.head? = some (Block.heading1 (("🚀 Cymbiotika ".toList) ++ ("Z".toList))) ∧
      bs.getLast? = some footerCallout :=
  ⟨by decide, _, rfl,
    buildReport_first_heading_last_callout ("P".toList) ("Z".toList)
      ("hello".toList) ("E".toList) ("T".toList) _ (by decide) rfl⟩

/-! ## C9: empty selection falls back to all six analysis types -/

/-- C9: in selective mode an empty `Analysis Types` list — including the
case where the page fetch failed and `get_page_data` substituted its
fallback dict — makes the orchestrator select all six known analysis
types. -/
theorem empty_selection_falls_back_to_all_six (c : Collab) (pageId : Str) :
    ((getPageData c pageId).analysisTypes = [] →
      getSelectedAnalysisTypes c pageId = allSixTypes) ∧
    (∀ e, c.retrievePage = .error e →
      getSelectedAnalysisTypes c pageId = allSixTypes) := by
  constructor
  · intro h
    unfold getSelectedAnalysisTypes
    rw [h]
    rfl
  · intro e he
    unfold getSelectedAnalysisTypes getPageData
    rw [he]
    rfl

/-- Witness for C9 at a concrete collaborator whose page has an empty
`Analysis Types` property. -/
theorem empty_selection_falls_back_to_all_six_witness :
    ((getPageData
        ⟨.ok ⟨some ("W".toList), none, some []⟩, fun _ => .ok (),
          fun _ => .response [], fun _ => .ok [], .ok (), []⟩
        ("p".toList)).analysisTypes = []) ∧
    getSelectedAnalysisTypes
        ⟨.ok ⟨some ("W".toList), none, some []⟩, fun _ => .ok (),
          fun _ => .response [], fun _ => .ok [], .ok (), []⟩
        ("p".toList) = allSixTypes :=
  ⟨rfl,
    (empty_selection_falls_back_to_all_six
      ⟨.ok ⟨some ("W".toList), none, some []⟩, fun _ => .ok (),
        fun _ => .response [], fun _ => .ok [], .ok (), []⟩
      ("p".toList)).1 rfl⟩

/-! ## C10: the stored AI Recommendation is the first 2000 characters -/

/-- C10: `update_analysis_completion` stores `str(recommendation)[:2000]`
as the `AI Recommendation` content: unchanged when the recommendation has
at most 2000 characters, exactly the first 2000 characters otherwise. -/
theorem recommendation_truncated_to_2000 (recommendation : Str) :
    completionContent recommendation = recommendation.take 2000 ∧
    (recommendation.length ≤ 2000 →
      completionContent recommendation = recommendation) ∧
    (2000 < recommendation.length →
      (completionContent recommendation).length = 2000) ∧
    updateAnalysisCompletionStored (Except.ok ()) recommendation
      = some (completionContent recommendation) := by
  refine ⟨rfl, ?_, ?_, rfl⟩
  · intro h
    exact List.take_of_length_le h
  · intro h
    simp [completionContent, Nat.min_eq_left (Nat.le_of_lt h)]

/-- Witness for C10 at a short and at a 2001-character recommendation. -/
theorem recommendation_truncated_to_2000_witness :
    (("hi".toList).length ≤ 2000 ∧ completionContent ("hi".toList) = "hi".toList) ∧
    (2000 < (List.replicate 2001 'a').length ∧
      (completionContent (List.replicate 2001 'a')).length = 2000) :=
  ⟨⟨by decide, (recommendation_truncated_to_2000 ("hi".toList)).2.1 (by decide)⟩,
   ⟨by rw [List.length_replicate]; norm_num,
    (recommendation_truncated_to_2000 (List.replicate 2001 'a')).2.2.1
      (by rw [List.length_replicate]; norm_num)⟩⟩

/-! ## C4: bullet-icon classification is first-match with at most one
icon -/

/-- Modelled from the spec (§4.2 bullet rule): the ordered list of
keyword families with their icons — increase-family, decrease-family,
recommend-family, competitive-family. -/
def specBulletRules : List (List Str × Str) :=
  [([("increase".toList), ("grow".toList), ("opportunity".toList),
     ("positive".toList), ("strong".toList)], "📈".toList),
   ([("decrease".toList), ("reduce".toList), ("risk".toList),
     ("negative".toList), ("challenge".toList)], "📉".toList),
   ([("recommend".toList), ("should".toList), ("action".toList),
     ("implement".toList)], "💡".toList),
   ([("competitive".toList), ("advantage".toList),
     ("differentiate".toList)], "🎯".toList)]

/-- Modelled from the spec: first-match evaluation of an ordered rule
list — the first family with a keyword occurring in the (lowered) text
wins; `none` when no family matches. -/
def firstMatchIcon : List (List Str × Str) → Str → Option Str
  | [], _ => none
  | (fam, icon) :: rest, lo =>
    if fam.any (fun w => pyContains w lo) then some icon
    else firstMatchIcon rest lo

/-- Modelled from the spec: the bullet text prefixed with exactly one
icon chosen by first-match precedence, or unchanged when no family
matches. -/
def bulletDecorateSpec (t : Str) : Str :=
  match firstMatchIcon specBulletRules (pyLower t) with
  | some icon => icon ++ (" ".toList) ++ t
  | none => t

/-- C4: the source's bullet decoration (lines 1152-1160) is exactly the
spec's first-match rule list — at most one icon, chosen in the fixed
family order, none when no family matches; in particular a bullet line
containing both an increase keyword and a risk keyword gets the up-trend
icon, as the classifier's output on such a bullet line shows. -/
theorem bullet_icon_first_match :
    (∀ t, bulletDecorate t = bulletDecorateSpec t) ∧
    bulletDecorate ("increase of risk".toList)
      = ("📈 ".toList) ++ ("increase of risk".toList) ∧
    bulletDecorate ("nothing matching here".toList)
      = ("nothing matching here".toList) ∧
    classifyLine ("- increase of risk".toList)
      = .ok [Block.bullet (("📈 ".toList) ++ ("increase of risk".toList))] := by
  refine ⟨?_, by decide, by decide, by rfl⟩
  intro t
  simp only [bulletDecorate, bulletDecorateSpec, specBulletRules, firstMatchIcon]
  split_ifs <;> rfl

/-! ## Classification lemmas for the line classifier -/

theorem startsWith_iff_append (p : Str) : ∀ l : Str,
    pyStartsWith p l = true ↔ ∃ rest, l = p ++ rest := by
  induction p with
  | nil => intro l; simp [pyStartsWith]
  | cons a ps ih =>
    intro l
    cases l with
    | nil => simp [pyStartsWith]
    | cons c cs =>
      simp only [pyStartsWith, Bool.and_eq_true, decide_eq_true_eq, ih,
        List.cons_append, List.cons.injEq]
      constructor
      · rintro ⟨rfl, rest, rfl⟩
        exact ⟨rest, rfl, rfl⟩
      · rintro ⟨rest, rfl, rfl⟩
        exact ⟨rfl, rest, rfl⟩

theorem litDashSp : ("- ".toList) = ['-', ' '] := rfl

theorem litBulSp : ("• ".toList) = ['•', ' '] := rfl

/-- A line passing the bullet test starts with `'- '` or `'• '`. -/
theorem bullet_shape (l : Str) (h : isBulletLine l = true) :
    (∃ cs, l = '-' :: ' ' :: cs) ∨ (∃ cs, l = '•' :: ' ' :: cs) := by
  unfold isBulletLine at h
  rw [Bool.or_eq_true] at h
  rcases h with h | h
  · rcases (startsWith_iff_append _ l).1 h with ⟨rest, rfl⟩
    exact Or.inl ⟨rest, by rw [litDashSp]; rfl⟩
  · rcases (startsWith_iff_append _ l).1 h with ⟨rest, rfl⟩
    exact Or.inr ⟨rest, by rw [litBulSp]; rfl⟩

/-- A line passing the `heading_2` test fails the `heading_3` test:
it starts with `'## '` (third character not `'#'`) or is `'**'`-wrapped
(first character neither `'#'` nor a digit). -/
theorem h2_h3_exclusive (l : Str) (h2 : isH2Line l = true) :
    isH3Line l = false := by
  unfold isH2Line at h2
  rw [Bool.or_eq_true] at h2
  rcases h2 with h | h
  · rcases (startsWith_iff_append _ l).1 h with ⟨rest, rfl⟩
    rfl
  · rw [Bool.and_eq_true, Bool.and_eq_true] at h
    rcases (startsWith_iff_append _ l).1 h.1.1 with ⟨rest, rfl⟩
    rfl

/-- A line passing the `heading_2` test fails the bullet test. -/
theorem h2_bullet_exclusive (l : Str) (h2 : isH2Line l = true) :
    isBulletLine l = false := by
  unfold isH2Line at h2
  rw [Bool.or_eq_true] at h2
  rcases h2 with h | h
  · rcases (startsWith_iff_append _ l).1 h with ⟨rest, rfl⟩
    rfl
  · rw [Bool.and_eq_true, Bool.and_eq_true] at h
    rcases (startsWith_iff_append _ l).1 h.1.1 with ⟨rest, rfl⟩
    rfl

/-- A line passing the `heading_3` test fails the bullet test. -/
theorem h3_bullet_exclusive (l : Str) (h3 : isH3Line l = true) :
    isBulletLine l = false := by
  unfold isH3Line at h3
  rw [Bool.or_eq_true] at h3
  rcases h3 with h | h
  · rcases (startsWith_iff_append _ l).1 h with ⟨rest, rfl⟩
    rfl
  · cases l with
    | nil => simp at h
    | cons c cs =>
      rw [Bool.and_eq_true, Bool.and_eq_true] at h
      have hc : c.isDigit = true := h.1.1
      cases hbl : isBulletLine (c :: cs) with
      | false => rfl
      | true =>
        rcases bullet_shape _ hbl with ⟨cs', hsh⟩ | ⟨cs', hsh⟩ <;>
          (injection hsh with hc' _; subst hc'; exact absurd hc (by decide))

/-- The bullet blocks one classified line contributes: exactly one when
the stripped line passes the bullet test, none otherwise. -/
theorem classify_filter_bullets (raw : Str) (bs : List Block)
    (h : classifyLine raw = Except.ok bs) :
    bs.filter isBulletBlock =
      if isBulletLine (pyStrip raw) = true then [mkBulletBlock (pyStrip raw)]
      else [] := by
  unfold classifyLine at h
  by_cases h0 : pyStrip raw = []
  · rw [if_pos h0] at h
    injection h with h
    subst h
    rw [h0]
    rfl
  · rw [if_neg h0] at h
    by_cases h2 : isH2Line (pyStrip raw) = true
    · rw [if_pos h2] at h
      injection h with h
      subst h
      rw [if_neg (by simp [h2_bullet_exclusive _ h2])]
      rfl
    · rw [if_neg h2] at h
      by_cases h3 : isH3Line (pyStrip raw) = true
      · rw [if_pos h3] at h
        rw [if_neg (by simp [h3_bullet_exclusive _ h3])]
        cases hh : h3Text (pyStrip raw) with
        | ok t => rw [hh] at h; injection h with h; subst h; rfl
        | error e => rw [hh] at h; exact absurd h (by simp)
      · rw [if_neg h3] at h
        by_cases hb : isBulletLine (pyStrip raw) = true
        · rw [if_pos hb] at h
          injection h with h
          subst h
          rw [if_pos hb]
          rfl
        · rw [if_neg hb] at h
          rw [if_neg hb]
          by_cases hc : isCalloutLine (pyStrip raw) = true
          · rw [if_pos hc] at h
            injection h with h
            subst h
            rfl
          · rw [if_neg hc] at h
            by_cases hp : isParaLine (pyStrip raw) = true
            · rw [if_pos hp] at h
              injection h with h
              subst h
              rfl
            · rw [if_neg hp] at h
              injection h with h
              subst h
              rfl

/-- The bullet blocks of a whole parse: one per bullet line, in line
order. -/
theorem parseLines_filter_bullets (ls : List Str) : ∀ bs : List Block,
    parseLines ls = Except.ok bs →
    bs.filter isBulletBlock =
      ((ls.map pyStrip).filter isBulletLine).map mkBulletBlock := by
  induction ls with
  | nil =>
    intro bs h
    injection h with h
    subst h
    rfl
  | cons x xs ih =>
    intro bs h
    unfold parseLines at h
    cases hc : classifyLine x with
    | error e => rw [hc] at h; exact Except.noConfusion h
    | ok b =>
      rw [hc] at h
      cases hr : parseLines xs with
      | error e => rw [hr] at h; exact Except.noConfusion h
      | ok rest =>
        rw [hr] at h
        injection h with h
        subst h
        rw [List.filter_append, ih rest hr, classify_filter_bullets x b hc,
          List.map_cons, List.filter_cons]
        by_cases hb : isBulletLine (pyStrip x) = true
        · simp [hb]
        · simp [hb]

/-! ## C3: each `- ` line yields exactly one BulletItem, in line order -/

/-- C3: within a completed parse, the bullet blocks are exactly the
(stripped) lines passing the source's bullet test — which every line
beginning with `'- '` does — one block per line, in the order of the
lines. -/
theorem bullets_one_per_dash_line (content : Str) (bs : List Block)
    (h : parseContentToBlocks content = Except.ok bs) :
    bs.filter isBulletBlock =
      (((pySplitOn '\n' content).map pyStrip).filter isBulletLine).map
        mkBulletBlock ∧
    ∀ l : Str, pyStartsWith ("- ".toList) l = true → isBulletLine l = true := by
  refine ⟨parseLines_filter_bullets _ bs h, ?_⟩
  intro l hl
  unfold isBulletLine
  rw [hl]
  rfl

/-- Witness for C3 at a concrete three-line report text. -/
theorem bullets_one_per_dash_line_witness :
    ∃ bs, parseContentToBlocks ("- alpha one\nplain middle line\n- beta risk".toList)
        = Except.ok bs ∧
      bs.filter isBulletBlock =
        (((pySplitOn '\n' ("- alpha one\nplain middle line\n- beta risk".toList)).map
          pyStrip).filter isBulletLine).map mkBulletBlock :=
  ⟨_, rfl,
    (bullets_one_per_dash_line ("- alpha one\nplain middle line\n- beta risk".toList)
      _ rfl).1⟩

/-! ## C5: when is a line emitted as a level-3 heading -/

/-- Modelled from the claim's words: a level-3 heading iff the line
starts with `'### '`, or starts with a digit immediately followed by
`'. '` and contains `'**'`. -/
def claimH3Cond (l : Str) : Bool :=
  pyStartsWith ("### ".toList) l ||
    ((match l with
      | c :: '.' :: ' ' :: _ => c.isDigit
      | _ => false) && pyContains ("**".toList) l)

/-- C5 counterexample: the claim's iff fails on the line
`5x. **Plan**` — the source emits a level-3 heading for it (its digit
test is `line[0].isdigit() and '. ' in line`, with `'. '` anywhere),
although the line does not start with a digit immediately followed by
`'. '`. -/
theorem heading3_condition_claim_false :
    ¬ ∀ (raw : Str) (bs : List Block), classifyLine raw = Except.ok bs →
        ((∃ t, Block.heading3 t ∈ bs) ↔ claimH3Cond (pyStrip raw) = true) := by
  intro hclaim
  have h := (hclaim ("5x. **Plan**".toList) [Block.heading3 ("Plan".toList)]
      rfl).mp ⟨("Plan".toList), by simp⟩
  exact absurd h (by decide)

/-- C5 amended: a line is emitted as a level-3 heading iff (after
trimming) it starts with `'### '`, or its first character is a digit
and it contains `'. '` anywhere and contains `'**'` (the source
condition `isH3Line`); the emitted text is the line with all `'###'`
removed and stripped, then — when digit-led — the part after the first
`'.'` stripped, with all `'**'` removed (`h3Text`). -/
theorem heading3_iff_source_condition (raw : Str) (bs : List Block)
    (h : classifyLine raw = Except.ok bs) :
    ((∃ t, bs = [Block.heading3 t]) ↔ isH3Line (pyStrip raw) = true) ∧
    (∀ t, bs = [Block.heading3 t] → h3Text (pyStrip raw) = Except.ok t) := by
  unfold classifyLine at h
  by_cases h0 : pyStrip raw = []
  · rw [if_pos h0] at h
    injection h with h
    subst h
    rw [h0]
    exact ⟨by simp [isH3Line, pyStartsWith], by simp⟩
  · rw [if_neg h0] at h
    by_cases h2 : isH2Line (pyStrip raw) = true
    · rw [if_pos h2] at h
      injection h with h
      subst h
      refine ⟨⟨fun ⟨t, ht⟩ => by simp at ht, fun h3t => ?_⟩, fun t ht => by simp at ht⟩
      rw [h2_h3_exclusive _ h2] at h3t
      exact absurd h3t (by simp)
    · rw [if_neg h2] at h
      by_cases h3 : isH3Line (pyStrip raw) = true
      · rw [if_pos h3] at h
        cases hh : h3Text (pyStrip raw) with
        | ok t0 =>
          rw [hh] at h
          injection h with h
          subst h
          refine ⟨⟨fun _ => h3, fun _ => ⟨t0, rfl⟩⟩, fun t ht => ?_⟩
          have : t0 = t := by simpa using ht
          rw [← this]
        | error e => rw [hh] at h; exact Except.noConfusion h
      · rw [if_neg h3] at h
        have hno : ∀ t : Str, bs ≠ [Block.heading3 t] := by
          by_cases hb : isBulletLine (pyStrip raw) = true
          · rw [if_pos hb] at h
            injection h with h
            subst h
            intro t ht
            simp [mkBulletBlock] at ht
          · rw [if_neg hb] at h
            by_cases hc : isCalloutLine (pyStrip raw) = true
            · rw [if_pos hc] at h
              injection h with h
              subst h
              intro t ht
              simp at ht
            · rw [if_neg hc] at h
              by_cases hp : isParaLine (pyStrip raw) = true
              · rw [if_pos hp] at h
                injection h with h
                subst h
                intro t ht
                simp at ht
              · rw [if_neg hp] at h
                injection h with h
                subst h
                intro t ht
                simp at ht
        refine ⟨⟨fun ⟨t, ht⟩ => absurd ht (hno t), fun h3t => absurd h3t h3⟩,
          fun t ht => absurd ht (hno t)⟩

/-- Witness for C5's amended theorem at a concrete `'### '` line. -/
theorem heading3_iff_source_condition_witness :
    ∃ bs, classifyLine ("### Results".toList) = Except.ok bs ∧
      ((∃ t, bs = [Block.heading3 t]) ↔
        isH3Line (pyStrip ("### Results".toList)) = true) :=
  ⟨_, rfl, (heading3_iff_source_condition ("### Results".toList) _ rfl).1⟩

/-! ## C2: the formatter does not run to completion on every input -/

/-- C2: the edge cases the spec names do hold — the empty text and the
sentinel text `Analysis failed: timeout` are formatted without error,
and empty raw text still yields the static preamble table and the
footer callout — but the formatter is not total: the single-line input
`### ###` raises an `IndexError` (`subheading_text[0]` on the empty
string left after removing the `'###'` markers), so the build aborts
with no blocks at all. -/
theorem formatter_crash_and_edge_cases :
    parseContentToBlocks ("### ###".toList) = Except.error FmtErr.indexError ∧
    parseContentToBlocks ("### 2024 results".toList)
      = Except.error FmtErr.indexError ∧
    parseContentToBlocks ("Analysis failed: timeout".toList)
      = Except.ok [Block.paragraph ("Analysis failed: timeout".toList)] ∧
    parseContentToBlocks ([]) = Except.ok [] ∧
    buildReportBlocks ("P".toList) ("Market Analysis".toList) [] ("T".toList)
      = Except.ok (headerBlocks ("P".toList) ("Market Analysis".toList)
          ("📊".toList) ("T".toList) ++ marketStaticBlocks ++ footerBlocks) ∧
    marketTableBlock ∈ marketStaticBlocks ∧
    footerBlocks.getLast? = some footerCallout ∧
    buildReportBlocks ("P".toList) ("Market Analysis".toList)
        ("### ###".toList) ("T".toList) = Except.error FmtErr.indexError :=
  ⟨rfl, rfl, rfl, rfl, rfl, by simp [marketStaticBlocks], rfl, rfl⟩

/-! ## C6: what actually happens when every generator call fails -/

/-- Fixture family: a run whose every chat-completion call raises a
caught exception (`timeout`), with all Notion calls succeeding and no
`Analysis Types` selected (so all six types run). -/
def allGenFailCollab (title description now : Str) : Collab :=
  { retrievePage := .ok ⟨some title, some description, none⟩
    statusUpdate := fun _ => .ok ()
    genCall := fun _ => .exn ("timeout".toList)
    createPage := fun _ => .ok ("page".toList)
    completionUpdate := .ok ()
    now := now }

/-- The analysis types the run publishes when all six are selected, in
source order. -/
def allSixPublished : List Str :=
  [("Market Analysis".toList), ("Competitive Analysis".toList),
   ("Risk Assessment".toList), ("Technical Feasibility".toList),
   ("Financial Overview".toList), ("Solution Recommendations".toList)]

/-- C6 counterexample: with every generator call failing (caught
exception `timeout`), the orchestrator still publishes six report pages
(each containing the sentinel text), sets the status to `Complete` —
not `Error` — and runs the executive-summary step. -/
theorem all_generators_fail_claim_false :
    (∀ i, (allGenFailCollab ("W".toList) ("D".toList) ("T".toList)).genCall i
      = GenOutcome.exn ("timeout".toList)) ∧
    (createSelectiveAnalysis (allGenFailCollab ("W".toList) ("D".toList)
        ("T".toList)) ("p1".toList)).2.published.length = 6 ∧
    (createSelectiveAnalysis (allGenFailCollab ("W".toList) ("D".toList)
        ("T".toList)) ("p1".toList)).2.statusSets
      = [("Analyzing".toList), ("Complete".toList)] ∧
    (createSelectiveAnalysis (allGenFailCollab ("W".toList) ("D".toList)
        ("T".toList)) ("p1".toList)).2.execCalls = 1 ∧
    (∃ r, (createSelectiveAnalysis (allGenFailCollab ("W".toList) ("D".toList)
        ("T".toList)) ("p1".toList)).1 = .ok r ∧
      r.status = ("Complete".toList)) :=
  ⟨fun _ => rfl, rfl, rfl, rfl, _, rfl, rfl⟩

/-- C6 amended: when every per-analysis-type generator call fails, each
failure is converted to the `'Analysis failed: ...'` sentinel string by
`generate_response`, so the orchestrator still publishes one report page
per selected type (containing the sentinel text), records all six in
`analysis_results`, sets the page status to `Complete`, and still runs
the executive-summary step — whose own failed call stores the sentinel
string as the recommendation.  The publishes-zero/`Error`/skip-summary
path runs only when `analysis_results` stays empty, which generator
failures cannot cause. -/
theorem all_generators_fail_run_completes (title description now pageId : Str) :
    (createSelectiveAnalysis (allGenFailCollab title description now)
        pageId).2.published = allSixPublished ∧
    (createSelectiveAnalysis (allGenFailCollab title description now)
        pageId).2.results = allSixPublished ∧
    (createSelectiveAnalysis (allGenFailCollab title description now)
        pageId).2.statusSets = [("Analyzing".toList), ("Complete".toList)] ∧
    (createSelectiveAnalysis (allGenFailCollab title description now)
        pageId).2.execCalls = 1 ∧
    (createSelectiveAnalysis (allGenFailCollab title description now)
        pageId).2.completionSet = some ("Analysis failed: timeout".toList) ∧
    ∃ r, (createSelectiveAnalysis (allGenFailCollab title description now)
        pageId).1 = .ok r ∧
      r.status = ("Complete".toList) ∧ r.analysisResults = allSixPublished :=
  ⟨rfl, rfl, rfl, rfl, rfl, _, rfl, rfl, rfl⟩

/-! ## C7: a failed page fetch is not fatal; the unguarded status update
is -/

/-- Fixture family: a run whose page retrieve fails while every other
collaborator call succeeds. -/
def retrieveFailCollab (e now : Str) : Collab :=
  { retrievePage := .error e
    statusUpdate := fun _ => .ok ()
    genCall := fun _ => .response ("R".toList)
    createPage := fun _ => .ok ("page".toList)
    completionUpdate := .ok ()
    now := now }

/-- Fixture family: a run whose `Analyzing` status update fails while
every other collaborator call succeeds. -/
def statusFailCollab (e now : Str) : Collab :=
  { retrievePage := .ok ⟨some ("W".toList), none, none⟩
    statusUpdate := fun s =>
      if s = ("Analyzing".toList) then .error e else .ok ()
    genCall := fun _ => .response ("R".toList)
    createPage := fun _ => .ok ("page".toList)
    completionUpdate := .ok ()
    now := now }

/-- C7 counterexample: with the initial page fetch failing, the run does
not abort — `get_page_data` swallows the failure and substitutes
fallback fields, all six analyses run, six pages are published, and the
status ends `Complete`, not `Error`. -/
theorem fetch_failure_claim_false :
    (retrieveFailCollab ("boom".toList) ("T".toList)).retrievePage
      = .error ("boom".toList) ∧
    (createSelectiveAnalysis (retrieveFailCollab ("boom".toList) ("T".toList))
        ("pid12345".toList)).2.published.length = 6 ∧
    (createSelectiveAnalysis (retrieveFailCollab ("boom".toList) ("T".toList))
        ("pid12345".toList)).2.statusSets
      = [("Analyzing".toList), ("Complete".toList)] ∧
    (∃ r, (createSelectiveAnalysis (retrieveFailCollab ("boom".toList)
        ("T".toList)) ("pid12345".toList)).1 = .ok r ∧
      r.status = ("Complete".toList) ∧
      r.projectName = ("Project pid12345".toList)) :=
  ⟨rfl, rfl, rfl, _, rfl, rfl, rfl⟩

/-- C7 amended: a failure of the initial page fetch is swallowed —
`get_page_data` returns fallback fields (`'Project '` plus the first
eight characters of the page id, a placeholder description, no selected
types, hence all six analyses) and the run completes normally.  The
collaborator failure that does abort the run is the unguarded status
update to `Analyzing`: the run then stops before any analysis (no chat
call, no page published, no result recorded), best-effort sets the
status to `Error`, and re-raises. -/
theorem fetch_failure_not_fatal_status_update_fatal (e now pageId : Str) :
    ((createSelectiveAnalysis (retrieveFailCollab e now) pageId).2.published
      = allSixPublished ∧
     ∃ r, (createSelectiveAnalysis (retrieveFailCollab e now) pageId).1
        = .ok r ∧
      r.status = ("Complete".toList) ∧
      r.projectName = ("Project ".toList) ++ pageId.take 8) ∧
    ((createSelectiveAnalysis (statusFailCollab e now) pageId).1
      = .error e ∧
     (createSelectiveAnalysis (statusFailCollab e now) pageId).2.llmIdx = 0 ∧
     (createSelectiveAnalysis (statusFailCollab e now) pageId).2.published
      = [] ∧
     (createSelectiveAnalysis (statusFailCollab e now) pageId).2.results
      = [] ∧
     (createSelectiveAnalysis (statusFailCollab e now) pageId).2.statusSets
      = [("Error".toList)]) :=
  ⟨⟨rfl, _, rfl, rfl, rfl⟩, rfl, rfl, rfl, rfl, rfl⟩

/-! ## C8: there is no priority-score parsing -/

/-- Fixture family: a run with one selected analysis type whose
analyzer call and executive-summary call return the given strings. -/
def execEchoCollab (execResponse now : Str) : Collab :=
  { retrievePage := .ok ⟨some ("W".toList), none,
      some [("Market Analysis".toList)]⟩
    statusUpdate := fun _ => .ok ()
    genCall := fun i =>
      if i = 0 then .response ("body".toList) else .response execResponse
    createPage := fun _ => .ok ("page".toList)
    completionUpdate := .ok ()
    now := now }

/-- C8 counterexample: the executive-summary step makes a single
generator call and stores its text verbatim — with response `15` the
stored recommendation is the string `15`, not a value clamped to 10,
and with response `banana` the stored recommendation is `banana`, not
any fixed fallback.  No integer in [1,10] is parsed anywhere. -/
theorem priority_score_parsing_claim_false :
    (createSelectiveAnalysis (execEchoCollab ("15".toList) ("T".toList))
        ("p".toList)).2.completionSet = some ("15".toList) ∧
    ("15".toList ≠ "10".toList) ∧
    (createSelectiveAnalysis (execEchoCollab ("banana".toList) ("T".toList))
        ("p".toList)).2.completionSet = some ("banana".toList) ∧
    (createSelectiveAnalysis (execEchoCollab ("banana".toList) ("T".toList))
        ("p".toList)).2.execCalls = 1 ∧
    (createSelectiveAnalysis (execEchoCollab ("banana".toList) ("T".toList))
        ("p".toList)).2.llmIdx = 2 :=
  ⟨rfl, by decide, rfl, rfl, rfl⟩

/-- C8 amended: after the selected analyses complete, the
executive-summary step makes exactly one generator call and the run
stores its stripped response text verbatim as the `AI Recommendation`
(truncated to 2000 characters by the completion update); no integer
priority score is parsed, clamped, or defaulted. -/
theorem executive_recommendation_stored_verbatim (s now pageId : Str) :
    (createSelectiveAnalysis (execEchoCollab s now) pageId).2.completionSet
      = some (completionContent (pyStrip s)) ∧
    (createSelectiveAnalysis (execEchoCollab s now) pageId).2.execCalls = 1 ∧
    (createSelectiveAnalysis (execEchoCollab s now) pageId).2.llmIdx = 2 ∧
    generateExecutiveRecommendation (GenOutcome.response s)
      = Except.ok (pyStrip s) ∧
    ∃ r, (createSelectiveAnalysis (execEchoCollab s now) pageId).1 = .ok r ∧
      r.status = ("Complete".toList) :=
  ⟨rfl, rfl, rfl, rfl, _, rfl, rfl⟩

end ProjectAnalyzer
